import Mathlib

/-!
Verification of the EXIF metadata-normalization engine (`exif.go`).

Floating-point values (`float64`) are modelled as exact rationals (`ℚ`);
spec and code both treat results "within floating-point tolerance".
Go string primitives that the code uses (`strings.Split`, `strings.TrimSpace`,
`strconv.ParseFloat`, `strconv.Atoi`, `strconv.FormatFloat`) are modelled by
executable functions over `List Char` below, restricted to the plain decimal
syntax relevant here (no hex floats, no Inf/NaN, no underscores).
-/

/-- Model of `strings.Split(v, sep)` for a one-character separator, over
character lists: splitting the empty string yields `[[]]`, and separators
are not included in the parts. -/
def splitOnChar (sep : Char) : List Char → List (List Char)
  | [] => [[]]
  | c :: rest =>
    let r := splitOnChar sep rest
    if c = sep then [] :: r
    else
      match r with
      | [] => [[c]]
      | p :: ps => (c :: p) :: ps

/-- Model of `strings.TrimSpace`: drop whitespace from both ends. -/
def trimChars (cs : List Char) : List Char :=
  ((cs.dropWhile Char.isWhitespace).reverse.dropWhile Char.isWhitespace).reverse

/-- Decimal digits to a natural number, most significant first. -/
def digitsToNat (ds : List Char) : Nat :=
  ds.foldl (fun a c => a * 10 + (c.toNat - 48)) 0

/-- Exponent suffix of `strconv.ParseFloat` decimal syntax: either nothing, or
`e`/`E` followed by an optional sign and a non-empty digit run consuming the
rest of the input. -/
def parseExpPart (m : ℚ) (cs : List Char) : Option ℚ :=
  match cs with
  | [] => some m
  | e :: r =>
    if e = 'e' ∨ e = 'E' then
      let r1 := match r with
        | '+' :: t => t
        | '-' :: t => t
        | t => t
      let negExp := match r with
        | '-' :: _ => true
        | _ => false
      let ds := r1.takeWhile Char.isDigit
      let rest := r1.dropWhile Char.isDigit
      if ds = [] ∨ rest ≠ [] then none
      else if negExp then some (m / 10 ^ digitsToNat ds)
      else some (m * 10 ^ digitsToNat ds)
    else none

/-- Model of `strconv.ParseFloat(s, 64)` on plain decimal syntax
(`[+|-] digits [. digits] [(e|E) [+|-] digits]`, needing at least one
mantissa digit), returning the exact rational value. -/
def parseFloatChars (cs : List Char) : Option ℚ :=
  let sgn : ℚ := match cs with
    | '-' :: _ => -1
    | _ => 1
  let cs1 := match cs with
    | '+' :: r => r
    | '-' :: r => r
    | r => r
  let ip := cs1.takeWhile Char.isDigit
  let rest1 := cs1.dropWhile Char.isDigit
  match rest1 with
  | '.' :: r2 =>
    let fp := r2.takeWhile Char.isDigit
    let rest2 := r2.dropWhile Char.isDigit
    if ip = [] ∧ fp = [] then none
    else parseExpPart (sgn * ((digitsToNat ip : ℚ) + (digitsToNat fp : ℚ) / 10 ^ fp.length)) rest2
  | _ =>
    if ip = [] then none
    else parseExpPart (sgn * (digitsToNat ip : ℚ)) rest1

/-- `parseEXIFRational` (exif.go lines 536-573) over character lists: trim
whitespace; empty input is 0 with no error; split on `/`; more than two parts
is an error; empty numerator is an error; a numerator equal to 0 (or no slash)
returns the numerator without looking at the denominator; a denominator of 0
is an error; otherwise the quotient. -/
def parseEXIFRationalChars (v0 : List Char) : Except String ℚ :=
  let v := trimChars v0
  if v = [] then .ok 0
  else
    let parts := splitOnChar '/' v
    if parts.length > 2 then .error "invalid value: more than 1 slash found"
    else if parts.headD [] = [] then .error "invalid value: numerator is empty"
    else
      match parseFloatChars (parts.headD []) with
      | Option.none => .error "invalid syntax"
      | Option.some num =>
        if parts.length = 1 ∨ num = 0 then .ok num
        else
          match parseFloatChars (parts.getD 1 []) with
          | Option.none => .error "invalid syntax"
          | Option.some den =>
            if den = 0 then .error "invalid value: denumerator is 0"
            else .ok (num / den)

/-- `parseEXIFRational` on a `String` input. -/
def parseEXIFRational (v : String) : Except String ℚ :=
  parseEXIFRationalChars v.data

/-- `parseEXIFRationalOrLogError` (exif.go lines 576-582): on error the
underlying function has already returned 0 as the value, which is passed
through (the log side effect is not modelled). -/
def parseEXIFRationalOrLogError (v : String) : ℚ :=
  match parseEXIFRational v with
  | .ok r => r
  | .error _ => 0

instance : DecidableEq (Except String ℚ) := fun a b =>
  match a, b with
  | .ok x, .ok y => decidable_of_iff (x = y) (by simp)
  | .error x, .error y => decidable_of_iff (x = y) (by simp)
  | .ok _, .error _ => isFalse (fun h => Except.noConfusion h)
  | .error _, .ok _ => isFalse (fun h => Except.noConfusion h)

/-- Rounding used by `strconv.FormatFloat(v, 'f', 2, 64)`: round to the
nearest integer, ties to the even integer. -/
def roundHalfEven (q : ℚ) : ℤ :=
  let f := ⌊q⌋
  let r := q - (f : ℚ)
  if r < 1 / 2 then f
  else if 1 / 2 < r then f + 1
  else if f % 2 = 0 then f else f + 1

/-- Model of Go `math.Round`: round half away from zero. -/
def roundAwayFromZero (q : ℚ) : ℤ :=
  if 0 ≤ q then ⌊q + 1 / 2⌋ else -⌊-q + 1 / 2⌋

/-- Model of Go `int(x)` conversion from float: truncate toward zero. -/
def truncTowardZero (q : ℚ) : ℤ :=
  if 0 ≤ q then ⌊q⌋ else ⌈q⌉

/-- Model of `strings.TrimRight(s, string(c))` for a single character. -/
def trimTrailing (c : Char) (cs : List Char) : List Char :=
  (cs.reverse.dropWhile (fun x => x = c)).reverse

/-- `formatFloat` (exif.go lines 527-533): renders
`strconv.FormatFloat(v, 'f', 2, 64)` — the `n` parameter is accepted but
unused by the body, exactly as in the source — then strips trailing zeros and
then a trailing decimal point. The sign of a negative zero result is not
modelled. -/
def formatFloat (v : ℚ) (n : Nat) : String :=
  let m := roundHalfEven (v * 100)
  let a := m.natAbs
  let rendered := (Nat.repr (a / 100)).data ++ ['.', Char.ofNat (48 + a / 10 % 10), Char.ofNat (48 + a % 10)]
  ((if m < 0 then ['-'] else []) ++ trimTrailing '.' (trimTrailing '0' rendered)).asString

/-- `formatHumanRational` (exif.go lines 490-501): 0 prints as "0"; values at
least 0.3 print via `formatFloat`; anything else prints as the unit fraction
`1/den` with `den := int(0.5 + 1/f)`. -/
def formatHumanRational (val : String) : String :=
  let f := parseEXIFRationalOrLogError val
  if f = 0 then "0"
  else if f ≥ 3 / 10 then formatFloat f 2
  else "1/" ++ toString (truncTowardZero (1 / 2 + 1 / f))

/-- Loop body of `parseGPSCoordinate` (exif.go lines 473-486): accumulate
`component / 60 ^ i`; the first component that fails rational parsing makes
the whole function return 0 immediately. -/
def parseGPSLoop : List (List Char) → Nat → ℚ → ℚ
  | [], _, acc => acc
  | p :: rest, i, acc =>
    match parseEXIFRationalChars p with
    | .error _ => 0
    | .ok r => parseGPSLoop rest (i + 1) (acc + r / 60 ^ i)

/-- `parseGPSCoordinate` (exif.go lines 473-486): split on spaces and sum the
components scaled by powers of 1/60. -/
def parseGPSCoordinate (v : String) : ℚ :=
  parseGPSLoop (splitOnChar ' ' v.data) 0 0

/-- Value a component contributes when it parses, and 0 when it fails
(the per-component reading of the lenient parse). -/
def exifComponentValue (p : List Char) : ℚ :=
  match parseEXIFRationalChars p with
  | .ok r => r
  | .error _ => 0

/-- Stated from the spec's words for comparison with `parseGPSCoordinate`:
the sum of `component_i / 60 ^ i` over the components in order, a component
that fails to parse contributing 0. -/
def gpsClaimedSum : List (List Char) → Nat → ℚ
  | [], _ => 0
  | p :: rest, i => exifComponentValue p / 60 ^ i + gpsClaimedSum rest (i + 1)

/-- The GPS-related fields of the raw `bimg.EXIF` record read by
`populateGPSFields`. -/
structure BimgEXIF where
  GPSLatitude : String := ""
  GPSLatitudeRef : String := ""
  GPSLongitude : String := ""
  GPSLongitudeRef : String := ""
  GPSAltitude : String := ""
  GPSAltitudeRef : String := ""
  GPSSpeed : String := ""
  GPSSpeedRef : String := ""
  GPSImgDirection : String := ""
  GPSImgDirectionRef : String := ""
  deriving DecidableEq

/-- The `EXIFGPS` output record (exif.go lines 57-64); defaults are Go zero
values. -/
structure EXIFGPS where
  Latitude : ℚ
  Longitude : ℚ
  Altitude : String := ""
  Speed : String := ""
  Direction : ℚ := 0
  DirectionRef : String := ""
  deriving DecidableEq

/-- The hemisphere-reference switches of `populateGPSFields` (exif.go lines
414-420 and 424-430): a reference in `pos` keeps the coordinate, one in `neg`
negates it, anything else makes the whole function return `nil`. -/
def applyRef (coord : ℚ) (ref : String) (pos neg : List String) : Option ℚ :=
  if ref ∈ pos then some coord
  else if ref ∈ neg then some (-coord)
  else none

/-- Altitude field of `populateGPSFields` (exif.go lines 433-440). -/
def gpsAltitudeField (s : BimgEXIF) : String :=
  if s.GPSAltitude = "" then ""
  else
    match parseEXIFRational s.GPSAltitude with
    | .error _ => ""
    | .ok alt =>
      formatFloat (if s.GPSAltitudeRef = "1" then -alt else alt) 0 ++ " m"

/-- Speed field of `populateGPSFields` (exif.go lines 442-454). -/
def gpsSpeedField (s : BimgEXIF) : String :=
  if s.GPSSpeed = "" ∨ s.GPSSpeedRef = "" then ""
  else
    match parseEXIFRational s.GPSSpeed with
    | .error _ => ""
    | .ok speed =>
      formatFloat speed 2 ++
        (if s.GPSSpeedRef = "K" ∨ s.GPSSpeedRef = "k" then " km/h"
         else if s.GPSSpeedRef = "M" ∨ s.GPSSpeedRef = "m" then " mph"
         else if s.GPSSpeedRef = "N" ∨ s.GPSSpeedRef = "n" then " kn"
         else "")

/-- Direction value of `populateGPSFields` (exif.go lines 456-458). -/
def gpsDirectionValue (s : BimgEXIF) : ℚ :=
  if s.GPSImgDirection = "" then 0
  else
    match parseEXIFRational s.GPSImgDirection with
    | .error _ => 0
    | .ok dir => (roundAwayFromZero (dir * 100) : ℚ) / 100

/-- DirectionRef field of `populateGPSFields` (exif.go lines 460-465). -/
def gpsDirectionRefField (s : BimgEXIF) : String :=
  if s.GPSImgDirection = "" then ""
  else
    match parseEXIFRational s.GPSImgDirection with
    | .error _ => ""
    | .ok _ =>
      if s.GPSImgDirectionRef = "T" ∨ s.GPSImgDirectionRef = "t" then "True North"
      else if s.GPSImgDirectionRef = "M" ∨ s.GPSImgDirectionRef = "m" then "Magnetic North"
      else ""

/-- Rounding of coordinates to five decimals:
`math.Round(x*100_000) / 100_000` (exif.go lines 421, 431). -/
def roundTo5 (q : ℚ) : ℚ :=
  (roundAwayFromZero (q * 100000) : ℚ) / 100000

/-- `populateGPSFields` (exif.go lines 406-470): `nil` when either coordinate
string is empty or either hemisphere reference falls into the `default` case
of its switch; otherwise builds the record with signed, rounded coordinates
and the optional altitude/speed/direction fields. -/
def populateGPSFields (s : BimgEXIF) : Option EXIFGPS :=
  if s.GPSLatitude = "" ∨ s.GPSLongitude = "" then none
  else
    match applyRef (parseGPSCoordinate s.GPSLatitude) s.GPSLatitudeRef ["N", "n"] ["S", "s"] with
    | Option.none => none
    | Option.some lat =>
      match applyRef (parseGPSCoordinate s.GPSLongitude) s.GPSLongitudeRef ["E", "e"] ["W", "w"] with
      | Option.none => none
      | Option.some lon =>
        some { Latitude := roundTo5 lat
               Longitude := roundTo5 lon
               Altitude := gpsAltitudeField s
               Speed := gpsSpeedField s
               Direction := gpsDirectionValue s
               DirectionRef := gpsDirectionRefField s }

/-- A value of Go interface type `any` as stored in the `EXIF` output fields:
either a descriptive string, a raw integer code, or a boolean. -/
inductive AnyValue where
  | s (v : String)
  | i (v : ℤ)
  | b (v : Bool)
  deriving DecidableEq

/-- `fired = (s.Flash & 1) == 1` (exif.go line 138), computed unconditionally
for every code; bit 0 of the two's-complement code is `code % 2`. -/
def flashFired (code : ℤ) : Bool :=
  decide (code % 2 = 1)

/-- The `switch s.Flash` table (exif.go lines 139-193). -/
def flashTable : List (ℤ × String) :=
  [(0x0, "No Flash"),
   (0x1, "Fired"),
   (0x5, "Fired, Return not detected"),
   (0x7, "Fired, Return detected"),
   (0x8, "On, Did not fire"),
   (0x9, "On, Fired"),
   (0xd, "On, Return not detected"),
   (0xf, "On, Return detected"),
   (0x10, "Off, Did not fire"),
   (0x14, "Off, Did not fire, Return not detected"),
   (0x18, "Auto, Did not fire"),
   (0x19, "Auto, Fired"),
   (0x1d, "Auto, Fired, Return not detected"),
   (0x1f, "Auto, Fired, Return detected"),
   (0x20, "No flash function"),
   (0x30, "Off, No flash function"),
   (0x41, "Fired, Red-eye reduction"),
   (0x45, "Fired, Red-eye reduction, Return not detected"),
   (0x47, "Fired, Red-eye reduction, Return detected"),
   (0x49, "On, Red-eye reduction"),
   (0x4d, "On, Red-eye reduction, Return not detected"),
   (0x4f, "On, Red-eye reduction, Return detected"),
   (0x50, "Off, Red-eye reduction"),
   (0x58, "Auto, Did not fire, Red-eye reduction"),
   (0x59, "Auto, Fired, Red-eye reduction"),
   (0x5d, "Auto, Fired, Red-eye reduction, Return not detected"),
   (0x5f, "Auto, Fired, Red-eye reduction, Return detected")]

/-- `res.FlashMode` (exif.go lines 139-196): the switch label when the code is
in the table, otherwise `default` assigns the boolean `res.Flash` itself. -/
def flashMode (code : ℤ) : AnyValue :=
  match flashTable.lookup code with
  | Option.some v => .s v
  | Option.none => .b (flashFired code)

/-- `switch s.ExposureProgram` table (exif.go lines 203-220). -/
def exposureProgramTable : List (ℤ × String) :=
  [(1, "Manual"),
   (2, "Program AE"),
   (3, "Aperture-priority AE"),
   (4, "Shutter speed priority AE"),
   (5, "Creative (Slow speed)"),
   (6, "Action (High speed)"),
   (7, "Portrait"),
   (8, "Landscape"),
   (9, "Bulb")]

/-- ExposureProgram decoding (exif.go lines 198-224): guarded by `code > 0`;
the switch has an (unreachable) `case 0` that assigns nil; the `default` case
stores the raw code. -/
def exposureProgram (code : ℤ) : Option AnyValue :=
  if code > 0 then
    if code = 0 then none
    else
      match exposureProgramTable.lookup code with
      | Option.some v => some (.s v)
      | Option.none => some (.i code)
  else none

/-- `switch s.MeteringMode` table (exif.go lines 226-246). -/
def meteringModeTable : List (ℤ × String) :=
  [(1, "Average"),
   (2, "Center-weighted average"),
   (3, "Spot"),
   (4, "Multi-spot"),
   (5, "Multi-segment"),
   (6, "Partial"),
   (255, "Other")]

/-- MeteringMode decoding (exif.go lines 225-247): guarded by `code > 0`, with
an unreachable `case 0` assigning nil and a `default` storing the raw code. -/
def meteringMode (code : ℤ) : Option AnyValue :=
  if code > 0 then
    if code = 0 then none
    else
      match meteringModeTable.lookup code with
      | Option.some v => some (.s v)
      | Option.none => some (.i code)
  else none

/-- `switch s.Compression` table (exif.go lines 249-347). -/
def compressionTable : List (ℤ × String) :=
  [(1, "Uncompressed"),
   (2, "CCITT 1D"),
   (3, "T4/Group 3 Fax"),
   (4, "T6/Group 4 Fax"),
   (5, "LZW"),
   (6, "JPEG (old-style)"),
   (7, "JPEG"),
   (8, "Adobe Deflate"),
   (9, "JBIG B&W"),
   (10, "JBIG Color"),
   (99, "JPEG"),
   (262, "Kodak 262"),
   (32766, "Next"),
   (32767, "Sony ARW Compressed"),
   (32769, "Packed RAW"),
   (32770, "Samsung SRW Compressed"),
   (32771, "CCIRLEW"),
   (32772, "Samsung SRW Compressed 2"),
   (32773, "PackBits"),
   (32809, "Thunderscan"),
   (32867, "Kodak KDC Compressed"),
   (32895, "IT8CTPAD"),
   (32896, "IT8LW"),
   (32897, "IT8MP"),
   (32898, "IT8BL"),
   (32908, "PixarFilm"),
   (32909, "PixarLog"),
   (32946, "Deflate"),
   (32947, "DCS"),
   (33003, "Aperio JPEG 2000 YCbCr"),
   (33005, "Aperio JPEG 2000 RGB"),
   (34661, "JBIG"),
   (34676, "SGILog"),
   (34677, "SGILog24"),
   (34712, "JPEG 2000"),
   (34713, "Nikon NEF Compressed"),
   (34715, "JBIG2 TIFF FX"),
   (34718, "Microsoft Document Imaging (MDI) Binary Level Codec"),
   (34719, "Microsoft Document Imaging (MDI) Progressive Transform Codec"),
   (34720, "Microsoft Document Imaging (MDI) Vector"),
   (34887, "ESRI Lerc"),
   (34892, "Lossy JPEG"),
   (34925, "LZMA2"),
   (34926, "Zstd"),
   (34927, "WebP"),
   (34933, "PNG"),
   (34934, "JPEG XR"),
   (65000, "Kodak DCR Compressed"),
   (65535, "Pentax PEF Compressed")]

/-- Compression decoding (exif.go lines 248-351): guarded by `code > 0`, the
`default` case stores the raw code. -/
def compression (code : ℤ) : Option AnyValue :=
  if code > 0 then
    match compressionTable.lookup code with
    | Option.some v => some (.s v)
    | Option.none => some (.i code)
  else none

/-- `switch s.ColorSpace` table (exif.go lines 353-363). -/
def colorSpaceTable : List (ℤ × String) :=
  [(0x1, "sRGB"),
   (0x2, "Adobe RGB"),
   (0xfffd, "Wide Gamut RGB"),
   (0xfffe, "ICC Profile"),
   (0xffff, "Uncalibrated")]

/-- ColorSpace decoding (exif.go lines 352-367): guarded by `code > 0`, the
`default` case stores the raw code. -/
def colorSpace (code : ℤ) : Option AnyValue :=
  if code > 0 then
    match colorSpaceTable.lookup code with
    | Option.some v => some (.s v)
    | Option.none => some (.i code)
  else none

/-- `switch s.SensingMethod` table (exif.go lines 369-383). -/
def sensingMethodTable : List (ℤ × String) :=
  [(1, "Not defined"),
   (2, "One-chip color area"),
   (3, "Two-chip color area"),
   (4, "Three-chip color area"),
   (5, "Color sequential area"),
   (7, "Trilinear"),
   (8, "Color sequential linear")]

/-- SensingMethod decoding (exif.go lines 368-387): guarded by `code > 0`, the
`default` case stores the raw code. -/
def sensingMethod (code : ℤ) : Option AnyValue :=
  if code > 0 then
    match sensingMethodTable.lookup code with
    | Option.some v => some (.s v)
    | Option.none => some (.i code)
  else none

/-- `switch s.ExposureMode` table (exif.go lines 389-395); `case 0` is
unreachable under the `code > 0` guard but kept from the source. -/
def exposureModeTable : List (ℤ × String) :=
  [(0, "Auto"),
   (1, "Manual"),
   (2, "Auto bracket")]

/-- ExposureMode decoding (exif.go lines 388-399): guarded by `code > 0`, the
`default` case stores the raw code. -/
def exposureMode (code : ℤ) : Option AnyValue :=
  if code > 0 then
    match exposureModeTable.lookup code with
    | Option.some v => some (.s v)
    | Option.none => some (.i code)
  else none

/-- Model of `strconv.Atoi`: optional sign, then a non-empty run of digits
consuming the whole input, with the 64-bit `int` range check. -/
def strconvAtoiChars (cs : List Char) : Option ℤ :=
  let neg := match cs with
    | '-' :: _ => true
    | _ => false
  let ds := match cs with
    | '+' :: r => r
    | '-' :: r => r
    | r => r
  if ds = [] ∨ ¬ (ds.all Char.isDigit) then none
  else
    let n : ℤ := if neg then -(digitsToNat ds : ℤ) else (digitsToNat ds : ℤ)
    if n < -(2 ^ 63) ∨ n > 2 ^ 63 - 1 then none else some n

/-- The SubjectArea loop (exif.go lines 124-134): parse each token, skip
tokens that fail, keep successes in order. -/
def subjectAreaLoop : List (List Char) → List ℤ
  | [] => []
  | p :: rest =>
    match strconvAtoiChars p with
    | Option.none => subjectAreaLoop rest
    | Option.some n => n :: subjectAreaLoop rest

/-- SubjectArea decoding (exif.go lines 121-136): for a non-empty raw string,
split on spaces; only when the token count is between 2 and 4 is the field
set, to the successfully parsed integers. -/
def subjectArea (raw : String) : Option (List ℤ) :=
  if raw = "" then none
  else
    let parts := splitOnChar ' ' raw.data
    if 2 ≤ parts.length ∧ parts.length ≤ 4 then some (subjectAreaLoop parts)
    else none

/-- The flash-related key/value pairs of the serialized `EXIF` record:
`Flash bool json:"flash,omitempty"` is omitted by `encoding/json` exactly when
the boolean is false, while `FlashMode any json:"flashMode,omitempty"` always
holds a non-nil interface value (the switch has a `default`), so it is always
emitted (exif.go lines 41-42 and 137-197). -/
def flashJSONFields (code : ℤ) : List (String × AnyValue) :=
  (if flashFired code then [("flash", AnyValue.b true)] else []) ++
    [("flashMode", flashMode code)]

section

attribute [local semireducible] Rat.add Rat.mul Rat.inv Rat.sub Rat.ofScientific

example : parseEXIFRational "0/0" = .ok 0 := by decide
example : parseEXIFRational "5/0" = .error "invalid value: denumerator is 0" := by decide
example : parseEXIFRational "" = .ok 0 := by decide
example : parseEXIFRational "  " = .ok 0 := by decide
example : parseEXIFRational "/3" = .error "invalid value: numerator is empty" := by decide
example : parseEXIFRational "1/2/3" = .error "invalid value: more than 1 slash found" := by decide
example : parseEXIFRational " 6/3 " = .ok 2 := by decide
example : parseEXIFRational "3.5" = .ok (7/2) := by decide
example : parseEXIFRational "-1/4" = .ok (-1/4) := by decide
example : parseEXIFRational "1e2" = .ok 100 := by decide
example : parseEXIFRational "x" = .error "invalid syntax" := by decide
example : formatFloat 3 2 = "3" := by decide
example : formatFloat (31 / 10) 2 = "3.1" := by decide
example : formatFloat (157 / 50) 0 = "3.14" := by decide
example : formatHumanRational "1/250" = "1/250" := by decide
example : formatHumanRational "3/10" = "0.3" := by decide
example : formatHumanRational "-1/4" = "1/-3" := by decide
example : parseGPSCoordinate "10 30" = 10 + 30 / 60 := by decide
example : parseGPSCoordinate "10 x" = 0 := by decide
example : subjectArea "10 20 30 abc" = some [10, 20, 30] := by decide
example : flashMode 0x19 = .s "Auto, Fired" := by decide
example : flashMode 2 = .b false := by decide
example : flashFired 0x19 = true := by decide
example : exposureProgram 0 = none := by decide
example : exposureProgram 5 = some (.s "Creative (Slow speed)") := by decide
example : compression 99 = some (.s "JPEG") := by decide
example : populateGPSFields { GPSLatitude := "1", GPSLatitudeRef := "E", GPSLongitude := "2", GPSLongitudeRef := "E" } = none := by decide
example : populateGPSFields { GPSLatitude := "10 30", GPSLatitudeRef := "S", GPSLongitude := "20", GPSLongitudeRef := "E" } = some { Latitude := -21 / 2, Longitude := 20 } := by decide

lemma lookup_eq_none_of_not_mem_keys (l : List (ℤ × String)) (a : ℤ)
    (h : a ∉ l.map Prod.fst) : l.lookup a = none := by
  induction l with
  | nil => rfl
  | cons p rest ih =>
    simp only [List.map_cons, List.mem_cons] at h
    push_neg at h
    obtain ⟨h1, h2⟩ := h
    simp [List.lookup, ih h2, beq_eq_false_iff_ne.mpr h1]

lemma subjectAreaLoop_eq_filterMap (parts : List (List Char)) :
    subjectAreaLoop parts = parts.filterMap strconvAtoiChars := by
  induction parts with
  | nil => rfl
  | cons p rest ih =>
    cases hc : strconvAtoiChars p <;>
      simp [subjectAreaLoop, List.filterMap_cons, hc, ih]

lemma parseGPSLoop_of_all_ok (parts : List (List Char)) :
    ∀ (i : Nat) (acc : ℚ),
      (∀ p ∈ parts, (parseEXIFRationalChars p).isOk = true) →
      parseGPSLoop parts i acc = acc + gpsClaimedSum parts i := by
  induction parts with
  | nil => intro i acc _; simp [parseGPSLoop, gpsClaimedSum]
  | cons p rest ih =>
    intro i acc h
    have hp := h p (List.mem_cons_self p rest)
    cases hc : parseEXIFRationalChars p with
    | error e => rw [hc] at hp; simp [Except.isOk, Except.toBool] at hp
    | ok r =>
      have hrest : ∀ q ∈ rest, (parseEXIFRationalChars q).isOk = true :=
        fun q hq => h q (List.mem_cons_of_mem p hq)
      simp only [parseGPSLoop, hc, gpsClaimedSum, exifComponentValue,
        ih (i + 1) (acc + r / 60 ^ i) hrest]
      ring

lemma parseGPSLoop_of_failure (parts : List (List Char)) :
    ∀ (i : Nat) (acc : ℚ),
      (∃ p ∈ parts, (parseEXIFRationalChars p).isOk = false) →
      parseGPSLoop parts i acc = 0 := by
  induction parts with
  | nil => intro i acc h; simp at h
  | cons p rest ih =>
    intro i acc h
    cases hc : parseEXIFRationalChars p with
    | error e => simp [parseGPSLoop, hc]
    | ok r =>
      obtain ⟨q, hq, hqbad⟩ := h
      rcases List.mem_cons.mp hq with rfl | hq2
      · rw [hc] at hqbad; simp [Except.isOk, Except.toBool] at hqbad
      · simp only [parseGPSLoop, hc]
        exact ih (i + 1) (acc + r / 60 ^ i) ⟨q, hq2, hqbad⟩

/-- C2: the claim states `formatFloat(v, n)` renders with at most `n` decimal
digits, so `formatFloat(v, 0)` would never contain a decimal point; the code
ignores `n` and always renders with two decimals, so `formatFloat(3.14, 0)`
is `"3.14"` and contains a decimal point.  The claim's own `n = 2` examples
do hold. -/
theorem formatFloat_ignores_max_decimals :
    formatFloat (157 / 50) 0 = "3.14"
    ∧ '.' ∈ (formatFloat (157 / 50) 0).data
    ∧ formatFloat 3 2 = "3"
    ∧ formatFloat (31 / 10) 2 = "3.1" := by decide

/-- C6 counterexample: the claim says flash code `0x19` carries the label
"On, Fired"; in the code's table `0x19` is "Auto, Fired" (`0x9` is the code
labelled "On, Fired"). -/
theorem flash_0x19_label_counterexample :
    flashMode 0x19 = AnyValue.s "Auto, Fired"
    ∧ flashMode 0x19 ≠ AnyValue.s "On, Fired"
    ∧ flashMode 0x9 = AnyValue.s "On, Fired" := by decide

/-- C6 (amended): the fired boolean is bit 0 of the raw code, computed
unconditionally; a code outside the table exposes the boolean itself as the
mode value; `0x19` gives fired = true with label "Auto, Fired"; `0x02` gives
fired = false with the boolean false as value. -/
theorem flash_fired_bit_and_fallback (code : ℤ) :
    (flashFired code = true ↔ code % 2 = 1)
    ∧ (code ∉ flashTable.map Prod.fst → flashMode code = AnyValue.b (flashFired code))
    ∧ flashFired 0x19 = true
    ∧ flashMode 0x19 = AnyValue.s "Auto, Fired"
    ∧ flashFired 0x2 = false
    ∧ flashMode 0x2 = AnyValue.b false := by
  refine ⟨by simp [flashFired], ?_, by decide, by decide, by decide, by decide⟩
  intro hmem
  simp [flashMode, lookup_eq_none_of_not_mem_keys flashTable code hmem]

theorem flash_fired_bit_and_fallback_witness :
    flashMode 2 = AnyValue.b (flashFired 2) :=
  (flash_fired_bit_and_fallback 2).2.1 (by decide)

/-- C7: every enumeration decoder other than Flash is skipped for a raw code
that is not positive (the output field is absent), while the flash block is
evaluated even at code 0. -/
theorem nonpositive_codes_skip_enum_decoders (code : ℤ) (h : code ≤ 0) :
    exposureProgram code = none
    ∧ meteringMode code = none
    ∧ compression code = none
    ∧ colorSpace code = none
    ∧ sensingMethod code = none
    ∧ exposureMode code = none
    ∧ flashMode 0 = AnyValue.s "No Flash"
    ∧ flashFired 0 = false := by
  have hng : ¬ (code > 0) := by omega
  exact ⟨by simp [exposureProgram, hng], by simp [meteringMode, hng],
    by simp [compression, hng], by simp [colorSpace, hng],
    by simp [sensingMethod, hng], by simp [exposureMode, hng],
    by decide, by decide⟩

theorem nonpositive_codes_skip_enum_decoders_witness :
    exposureProgram (-3) = none
    ∧ meteringMode (-3) = none
    ∧ compression (-3) = none
    ∧ colorSpace (-3) = none
    ∧ sensingMethod (-3) = none
    ∧ exposureMode (-3) = none
    ∧ flashMode 0 = AnyValue.s "No Flash"
    ∧ flashFired 0 = false :=
  nonpositive_codes_skip_enum_decoders (-3) (by decide)

/-- C8: a non-empty subject-area string is split on spaces; when the original
token count is within [2,4] the field holds the successfully parsed integers
in order (failing tokens silently dropped), and when the original token count
is outside [2,4] the field is absent; `"10 20 30 abc"` yields `[10, 20, 30]`. -/
theorem subject_area_filtering (raw : String) (h : raw ≠ "") :
    (∀ parts, parts = splitOnChar ' ' raw.data →
      ((2 ≤ parts.length ∧ parts.length ≤ 4 →
          subjectArea raw = some (parts.filterMap strconvAtoiChars))
        ∧ (parts.length < 2 ∨ 4 < parts.length → subjectArea raw = none)))
    ∧ subjectArea "10 20 30 abc" = some [10, 20, 30] := by
  refine ⟨?_, by decide⟩
  intro parts hp
  constructor
  · intro hlen
    simp [subjectArea, h, ← hp, hlen, subjectAreaLoop_eq_filterMap]
  · intro hlen
    have : ¬ (2 ≤ parts.length ∧ parts.length ≤ 4) := by omega
    simp [subjectArea, h, ← hp, this]

theorem subject_area_filtering_witness :
    subjectArea "10 20 30 abc" = some [10, 20, 30] :=
  (subject_area_filtering "10 20 30 abc" (by decide)).2

/-- C10: when bit 0 of the flash code is clear, the serialized output has no
"flash" key at all (the bool field is omit-empty, so a false fired flag is
indistinguishable from flash being absent), while the "flashMode" key is
still emitted. -/
theorem flash_false_omitted_from_json (code : ℤ) (h : code % 2 = 0) :
    (flashJSONFields code).lookup "flash" = none
    ∧ (flashJSONFields code).lookup "flashMode" = some (flashMode code)
    ∧ flashFired code = false := by
  have hf : flashFired code = false := by
    simp only [flashFired, decide_eq_false_iff_not]
    omega
  refine ⟨?_, ?_, hf⟩ <;> simp [flashJSONFields, hf, List.lookup]

theorem flash_false_omitted_from_json_witness :
    (flashJSONFields 0x10).lookup "flash" = none
    ∧ (flashJSONFields 0x10).lookup "flashMode" = some (flashMode 0x10)
    ∧ flashFired 0x10 = false :=
  flash_false_omitted_from_json 0x10 (by decide)

/-- C9 counterexample: the claim says the empty string and whitespace-only
strings report a format error; the code returns 0 with no error for them
(only the slash form `"/D"` reports the empty-numerator error). -/
theorem empty_input_not_error_counterexample :
    parseEXIFRational "" = .ok 0
    ∧ parseEXIFRational " " = .ok 0
    ∧ (parseEXIFRational "").isOk = true
    ∧ parseEXIFRational "/3" = .error "invalid value: numerator is empty" := by decide

/-- C9 (amended): an input that trims to the empty string returns 0 with no
error; an input that trims to something non-empty whose first `/`-part is
empty (and has at most one slash) reports the empty-numerator format error. -/
theorem empty_numerator_behavior (v : String) :
    (trimChars v.data = [] → parseEXIFRational v = .ok 0)
    ∧ (∀ parts, parts = splitOnChar '/' (trimChars v.data) →
        trimChars v.data ≠ [] → ¬ parts.length > 2 → parts.headD [] = [] →
        parseEXIFRational v = .error "invalid value: numerator is empty") := by
  constructor
  · intro ht
    simp [parseEXIFRational, parseEXIFRationalChars, ht]
  · intro parts hp ht hlen hhead
    rw [List.headD_eq_head?] at hhead
    simp [parseEXIFRational, parseEXIFRationalChars, ht, ← hp, hlen, hhead]

theorem empty_numerator_behavior_witness :
    parseEXIFRational " " = Except.ok 0
    ∧ parseEXIFRational "/3" = Except.error "invalid value: numerator is empty" :=
  ⟨(empty_numerator_behavior " ").1 (by decide),
   (empty_numerator_behavior "/3").2 (splitOnChar '/' (trimChars "/3".data)) rfl
     (by decide) (by decide) (by decide)⟩

/-- C5 counterexample: for the input "-1/4" the parsed value is -1/4, so
1/value = -4 exactly and the claim's `D = round(1/value)` is -4; the code's
`int(0.5 + 1/f)` truncation gives -3, so the emitted fraction has
denominator -3 where the claim predicts -4. -/
theorem human_rational_negative_counterexample :
    formatHumanRational "-1/4" = "1/-3"
    ∧ parseEXIFRationalOrLogError "-1/4" = -1 / 4
    ∧ (1 : ℚ) / (-1 / 4) = -4
    ∧ roundAwayFromZero ((1 : ℚ) / (-1 / 4)) = -4
    ∧ formatHumanRational "-1/4" ≠ "1/-4" := by decide

/-- C5 (amended): a parsed value of exactly 0 yields "0"; a value ≥ 0.3
yields `formatFloat(value, 2)`; any other value yields "1/D" with
`D = int(0.5 + 1/value)` truncated toward zero, which agrees with
`round(1/value)` whenever the value is positive (so `"1/250" -> "1/250"`
and `"3/10" -> "0.3"`), but not for negative values. -/
theorem format_human_rational_cases (val : String) :
    (parseEXIFRationalOrLogError val = 0 → formatHumanRational val = "0")
    ∧ (∀ f, f = parseEXIFRationalOrLogError val → f ≠ 0 → f ≥ 3 / 10 →
        formatHumanRational val = formatFloat f 2)
    ∧ (∀ f, f = parseEXIFRationalOrLogError val → f ≠ 0 → ¬ f ≥ 3 / 10 →
        formatHumanRational val = "1/" ++ toString (truncTowardZero (1 / 2 + 1 / f)))
    ∧ (∀ f, f = parseEXIFRationalOrLogError val → 0 < f → ¬ f ≥ 3 / 10 →
        truncTowardZero (1 / 2 + 1 / f) = roundAwayFromZero (1 / f))
    ∧ formatHumanRational "1/250" = "1/250"
    ∧ formatHumanRational "3/10" = "0.3" := by
  refine ⟨?_, ?_, ?_, ?_, by decide, by decide⟩
  · intro h0
    simp [formatHumanRational, h0]
  · rintro f rfl hne hge
    simp [formatHumanRational, hne, hge]
  · rintro f rfl hne hlt
    simp [formatHumanRational, hne, hlt]
  · intro f _ hpos hlt
    have h1 : (0 : ℚ) < 1 / f := by positivity
    have h2 : (0 : ℚ) ≤ 1 / 2 + 1 / f := by linarith
    rw [truncTowardZero, if_pos h2, roundAwayFromZero, if_pos (le_of_lt h1), add_comm]

theorem format_human_rational_cases_witness :
    formatHumanRational "2" = formatFloat 2 2
    ∧ formatHumanRational "1/250" = "1/" ++ toString (truncTowardZero (1 / 2 + 1 / ((1 : ℚ) / 250)))
    ∧ truncTowardZero (1 / 2 + 1 / ((1 : ℚ) / 250)) = roundAwayFromZero (1 / ((1 : ℚ) / 250)) :=
  ⟨(format_human_rational_cases "2").2.1 2 (by decide) (by decide) (by decide),
   (format_human_rational_cases "1/250").2.2.1 ((1 : ℚ) / 250) (by decide) (by decide) (by decide),
   (format_human_rational_cases "1/250").2.2.2.1 ((1 : ℚ) / 250) (by decide) (by decide) (by decide)⟩

/-- C3: a numerator that parses to exactly zero in an `"N/D"` input returns 0
without the denominator being parsed or validated (so `"0/0"` is 0 with no
error); more than one slash is a format error; a nonzero numerator over a
zero denominator (`"5/0"`) is a format error; and a valid `"N/D"` with D ≠ 0
yields N/D. -/
theorem parse_rational_zero_and_division (v : String) :
    (∀ parts, parts = splitOnChar '/' (trimChars v.data) →
      ((parts.length = 2 → parts.headD [] ≠ [] →
          parseFloatChars (parts.headD []) = some 0 →
          parseEXIFRational v = .ok 0)
        ∧ (trimChars v.data ≠ [] → parts.length > 2 →
          parseEXIFRational v = .error "invalid value: more than 1 slash found")
        ∧ (∀ num den, parts.length = 2 → parts.headD [] ≠ [] →
          parseFloatChars (parts.headD []) = some num → num ≠ 0 →
          parseFloatChars (parts.getD 1 []) = some den → den ≠ 0 →
          parseEXIFRational v = .ok (num / den))
        ∧ (∀ num, parts.length = 2 → parts.headD [] ≠ [] →
          parseFloatChars (parts.headD []) = some num → num ≠ 0 →
          parseFloatChars (parts.getD 1 []) = some 0 →
          parseEXIFRational v = .error "invalid value: denumerator is 0")))
    ∧ parseEXIFRational "0/0" = .ok 0
    ∧ parseEXIFRational "5/0" = .error "invalid value: denumerator is 0" := by
  refine ⟨?_, by decide, by decide⟩
  intro parts hp
  have hsplitnil : splitOnChar '/' ([] : List Char) = [[]] := rfl
  have hne : parts.length = 2 → trimChars v.data ≠ [] := by
    intro hlen h0
    rw [h0, hsplitnil] at hp
    rw [hp] at hlen
    simp at hlen
  refine ⟨?_, ?_, ?_, ?_⟩
  · intro hlen hhead hfloat
    have ht := hne hlen
    obtain ⟨a, b, rfl⟩ := List.length_eq_two.mp hlen
    simp only [List.headD] at hhead hfloat
    simp [parseEXIFRational, parseEXIFRationalChars, ht, ← hp, List.headD, hhead, hfloat]
  · intro ht hlen
    simp [parseEXIFRational, parseEXIFRationalChars, ht, ← hp, hlen]
  · intro num den hlen hhead hnum hnum0 hden hden0
    have ht := hne hlen
    obtain ⟨a, b, rfl⟩ := List.length_eq_two.mp hlen
    simp only [List.headD] at hhead hnum
    simp [List.getD] at hden
    simp [parseEXIFRational, parseEXIFRationalChars, ht, ← hp, List.headD, List.getD,
      hhead, hnum, hnum0, hden, hden0]
  · intro num hlen hhead hnum hnum0 hden
    have ht := hne hlen
    obtain ⟨a, b, rfl⟩ := List.length_eq_two.mp hlen
    simp only [List.headD] at hhead hnum
    simp [List.getD] at hden
    simp [parseEXIFRational, parseEXIFRationalChars, ht, ← hp, List.headD, List.getD,
      hhead, hnum, hnum0, hden]

theorem parse_rational_zero_and_division_witness :
    parseEXIFRational "6/3" = Except.ok ((6 : ℚ) / 3)
    ∧ parseEXIFRational "0/7" = Except.ok 0 :=
  ⟨((parse_rational_zero_and_division "6/3").1 (splitOnChar '/' (trimChars "6/3".data)) rfl).2.2.1
      6 3 (by decide) (by decide) (by decide) (by decide) (by decide) (by decide),
   ((parse_rational_zero_and_division "0/7").1 (splitOnChar '/' (trimChars "0/7".data)) rfl).1
      (by decide) (by decide) (by decide)⟩

lemma applyRef_latChar (coord : ℚ) (ref : String) :
    applyRef coord ref ["N", "n"] ["S", "s"] =
      if ref = "N" ∨ ref = "n" ∨ ref = "S" ∨ ref = "s"
      then some ((if ref = "S" ∨ ref = "s" then -1 else 1) * coord)
      else none := by
  by_cases h1 : ref = "N" ∨ ref = "n"
  · rcases h1 with h | h <;> simp [applyRef, h]
  · by_cases h2 : ref = "S" ∨ ref = "s"
    · rcases h2 with h | h <;> simp [applyRef, h]
    · push_neg at h1
      push_neg at h2
      simp [applyRef, h1.1, h1.2, h2.1, h2.2]

lemma applyRef_lonChar (coord : ℚ) (ref : String) :
    applyRef coord ref ["E", "e"] ["W", "w"] =
      if ref = "E" ∨ ref = "e" ∨ ref = "W" ∨ ref = "w"
      then some ((if ref = "W" ∨ ref = "w" then -1 else 1) * coord)
      else none := by
  by_cases h1 : ref = "E" ∨ ref = "e"
  · rcases h1 with h | h <;> simp [applyRef, h]
  · by_cases h2 : ref = "W" ∨ ref = "w"
    · rcases h2 with h | h <;> simp [applyRef, h]
    · push_neg at h1
      push_neg at h2
      simp [applyRef, h1.1, h1.2, h2.1, h2.2]

lemma populateGPSFields_eq (s : BimgEXIF)
    (hlat : s.GPSLatitude ≠ "") (hlon : s.GPSLongitude ≠ "") :
    populateGPSFields s =
      match applyRef (parseGPSCoordinate s.GPSLatitude) s.GPSLatitudeRef ["N", "n"] ["S", "s"] with
      | Option.none => none
      | Option.some lat =>
        match applyRef (parseGPSCoordinate s.GPSLongitude) s.GPSLongitudeRef ["E", "e"] ["W", "w"] with
        | Option.none => none
        | Option.some lon =>
          some { Latitude := roundTo5 lat
                 Longitude := roundTo5 lon
                 Altitude := gpsAltitudeField s
                 Speed := gpsSpeedField s
                 Direction := gpsDirectionValue s
                 DirectionRef := gpsDirectionRefField s } := by
  simp [populateGPSFields, hlat, hlon]

/-- C4 counterexample: the claim says the GPS record is omitted only when a
reference is not one of the four letters N, S, E, W; "E" is one of those four
letters, yet a record whose latitude reference is "E" is dropped (the
latitude switch only accepts N/n/S/s). -/
theorem gps_lat_ref_E_counterexample :
    populateGPSFields
        { GPSLatitude := "1", GPSLatitudeRef := "E",
          GPSLongitude := "2", GPSLongitudeRef := "E" } = none
    ∧ (("E" = "N" ∨ "E" = "S" ∨ "E" = "E" ∨ "E" = "W")
        ∧ ("1" : String) ≠ "" ∧ ("2" : String) ≠ "") := by decide

/-- C4 (amended): for non-empty coordinate strings, the GPS record is present
iff the latitude reference is N/n/S/s and the longitude reference is E/e/W/w;
when present, latitude is negated exactly for S/s, longitude is negated
exactly for W/w, and both are rounded to 5 decimal places. -/
theorem gps_reference_validation (s : BimgEXIF)
    (hlat : s.GPSLatitude ≠ "") (hlon : s.GPSLongitude ≠ "") :
    ((populateGPSFields s).isSome = true ↔
      ((s.GPSLatitudeRef = "N" ∨ s.GPSLatitudeRef = "n"
          ∨ s.GPSLatitudeRef = "S" ∨ s.GPSLatitudeRef = "s")
        ∧ (s.GPSLongitudeRef = "E" ∨ s.GPSLongitudeRef = "e"
          ∨ s.GPSLongitudeRef = "W" ∨ s.GPSLongitudeRef = "w")))
    ∧ (∀ g, populateGPSFields s = some g →
        g.Latitude = roundTo5
          ((if s.GPSLatitudeRef = "S" ∨ s.GPSLatitudeRef = "s" then -1 else 1)
            * parseGPSCoordinate s.GPSLatitude)
        ∧ g.Longitude = roundTo5
          ((if s.GPSLongitudeRef = "W" ∨ s.GPSLongitudeRef = "w" then -1 else 1)
            * parseGPSCoordinate s.GPSLongitude)) := by
  rw [populateGPSFields_eq s hlat hlon, applyRef_latChar, applyRef_lonChar]
  by_cases hA : s.GPSLatitudeRef = "N" ∨ s.GPSLatitudeRef = "n"
      ∨ s.GPSLatitudeRef = "S" ∨ s.GPSLatitudeRef = "s"
  · by_cases hB : s.GPSLongitudeRef = "E" ∨ s.GPSLongitudeRef = "e"
        ∨ s.GPSLongitudeRef = "W" ∨ s.GPSLongitudeRef = "w"
    · rw [if_pos hA, if_pos hB]
      refine ⟨by simp [hA, hB], ?_⟩
      rintro g hg
      rw [Option.some_inj] at hg
      subst hg
      exact ⟨rfl, rfl⟩
    · rw [if_pos hA, if_neg hB]
      exact ⟨by simp [hB], by rintro g hg; exact absurd hg (by simp)⟩
  · rw [if_neg hA]
    exact ⟨by simp [hA], by rintro g hg; exact absurd hg (by simp)⟩

theorem gps_reference_validation_witness :
    (populateGPSFields
        { GPSLatitude := "10 30", GPSLatitudeRef := "S",
          GPSLongitude := "20", GPSLongitudeRef := "E" }).isSome = true
    ∧ ({ Latitude := (-21 : ℚ) / 2, Longitude := 20 : EXIFGPS }.Latitude
        = roundTo5 ((if ("S" : String) = "S" ∨ ("S" : String) = "s" then -1 else 1)
            * parseGPSCoordinate "10 30")) :=
  ⟨(gps_reference_validation
      { GPSLatitude := "10 30", GPSLatitudeRef := "S",
        GPSLongitude := "20", GPSLongitudeRef := "E" }
      (by decide) (by decide)).1.mpr (by decide),
   ((gps_reference_validation
      { GPSLatitude := "10 30", GPSLatitudeRef := "S",
        GPSLongitude := "20", GPSLongitudeRef := "E" }
      (by decide) (by decide)).2
      { Latitude := (-21 : ℚ) / 2, Longitude := 20 } (by decide)).1⟩

/-- C1 counterexample: on the coordinate "10 x" the first component parses to
10 and the second fails, so the claim predicts 10 + 0/60 = 10 (only the
failing component zeroed); the code instead returns 0 for the whole
coordinate. -/
theorem gps_partial_components_counterexample :
    parseGPSCoordinate "10 x" = 0
    ∧ parseEXIFRationalChars ['1', '0'] = Except.ok 10
    ∧ (parseEXIFRationalChars ['x']).isOk = false
    ∧ gpsClaimedSum (splitOnChar ' ' "10 x".data) 0 = 10
    ∧ (0 : ℚ) ≠ 10 := by decide

/-- C1 (amended): when every space-separated component of a coordinate parses,
the decoder returns the sum of `component_i / 60 ^ i`; when any component
fails rational parsing the entire coordinate evaluates to 0 (the other
components do not contribute), and the GPS record is still produced rather
than aborted (shown here for valid N/E references, whatever the coordinate
strings contain). -/
theorem gps_parse_failure_zeroes_coordinate (v : String) :
    ((∀ p ∈ splitOnChar ' ' v.data, (parseEXIFRationalChars p).isOk = true) →
      parseGPSCoordinate v = gpsClaimedSum (splitOnChar ' ' v.data) 0)
    ∧ ((∃ p ∈ splitOnChar ' ' v.data, (parseEXIFRationalChars p).isOk = false) →
      parseGPSCoordinate v = 0)
    ∧ (∀ s : BimgEXIF, s.GPSLatitude ≠ "" → s.GPSLongitude ≠ "" →
        s.GPSLatitudeRef = "N" → s.GPSLongitudeRef = "E" →
        (populateGPSFields s).isSome = true) := by
  refine ⟨?_, ?_, ?_⟩
  · intro h
    have := parseGPSLoop_of_all_ok (splitOnChar ' ' v.data) 0 0 h
    simpa [parseGPSCoordinate] using this
  · intro h
    show parseGPSLoop (splitOnChar ' ' v.data) 0 0 = 0
    exact parseGPSLoop_of_failure _ 0 0 h
  · intro s h1 h2 h3 h4
    rw [populateGPSFields_eq s h1 h2, applyRef_latChar, applyRef_lonChar, h3, h4]
    simp

theorem gps_parse_failure_zeroes_coordinate_witness :
    parseGPSCoordinate "10 30" = gpsClaimedSum (splitOnChar ' ' "10 30".data) 0
    ∧ parseGPSCoordinate "10 x" = 0
    ∧ (populateGPSFields
        { GPSLatitude := "10 x", GPSLatitudeRef := "N",
          GPSLongitude := "20", GPSLongitudeRef := "E" }).isSome = true :=
  ⟨(gps_parse_failure_zeroes_coordinate "10 30").1 (by decide),
   (gps_parse_failure_zeroes_coordinate "10 x").2.1 (by decide),
   (gps_parse_failure_zeroes_coordinate "").2.2
      { GPSLatitude := "10 x", GPSLatitudeRef := "N",
        GPSLongitude := "20", GPSLongitudeRef := "E" }
      (by decide) (by decide) (by decide) (by decide)⟩

end
